import Mathlib

/-!
Shallow embedding of the saturn TURN server (liberocks/saturn) core:
the JWT token validator (src/token.go), the traffic-accounting packet
connection decorator (src/metrics_conn.go), the metrics registry and
HTTP exposure surface (src/logger.go), and the listener-pool wiring
of src/main.go.  Machine integers are modelled as Int/Nat; timestamps
are integral Unix seconds (the code truncates exp/iat to whole seconds
via time.Unix(int64(x), 0)); Prometheus float64 counters are modelled
as exact rationals.
-/

namespace Saturn

/-- JSON values as they appear in a decoded JWT payload (Go `interface\x7b\x7d`
after encoding/json decoding).  Numeric claims are modelled as integral
seconds, matching the whole-second granularity the code keeps. -/
inductive JVal where
  | str (s : String)
  | num (n : Int)
  | bool (b : Bool)
  | null
deriving DecidableEq, Repr

/-- The configuration fields of src/config.go used by the components
modelled here. -/
structure Config where
  publicIP : String
  accessSecret : String
  threadNum : Nat
  realm : String
  enableMetrics : Bool
  metricsAuth : String
  metricsUsername : String
  metricsPassword : String
deriving DecidableEq, Repr

/-- A bearer token as seen by jwt.Parse after base64/JSON decoding:
the header algorithm, the secret whose HMAC-SHA256 matches the token
signature, and the payload claims map. -/
structure Token where
  alg : String
  signedWith : String
  claims : List (String × JVal)
deriving DecidableEq, Repr

/-- Claim lookup in the payload map (Go `claims["k"]` on jwt.MapClaims). -/
def getClaim (t : Token) (k : String) : Option JVal :=
  (t.claims.find? (fun p => p.1 == k)).map (fun p => p.2)

/-- Go type assertion `v.(string)`: succeeds only on a string value. -/
def asString : Option JVal → Option String
  | some (.str s) => some s
  | _ => none

/-- Go type assertion `v.(float64)` on a numeric claim. -/
def asNum : Option JVal → Option Int
  | some (.num n) => some n
  | _ => none

/-- Errors produced by the jwt/v5 Parse step. -/
inductive ParseError where
  | algNotAllowed
  | signatureInvalid
  | tokenExpired
  | tokenNotYetValid
  | invalidClaims
deriving DecidableEq, Repr

/-- The `exp` rejection test of the jwt/v5 claims validator: a token is
expired when validation time is not strictly before the expiry, i.e.
when `exp` is at or before `now` (zero leeway is configured). -/
def libraryExpiryRejects (expSec now : Int) : Bool :=
  expSec ≤ now

/-- The manual double-check of src/token.go line 133,
`payload.ExpiresAt.Before(time.Now())`: `time.Time.Before` is strict,
so it rejects only strictly past expiries. -/
def manualExpiryRecheck (expSec now : Int) : Bool :=
  expSec < now

/-- Model of `jwt.Parse(tokenString, keyfunc, jwt.WithValidMethods(["HS256"]))`
from the golang-jwt/v5 library as invoked by ValidateToken: it checks the
header algorithm against the allowed list, verifies the HMAC signature
against the configured secret, and then validates the registered claims:
`exp` (rejecting expiry at or before now) and `nbf` (if present); `iat` is
not validated by default.  On success it yields the claims map. -/
def jwtParse (cfg : Config) (now : Int) (t : Token) :
    Except ParseError (List (String × JVal)) :=
  if t.alg ≠ "HS256" then .error .algNotAllowed
  else if t.signedWith ≠ cfg.accessSecret then .error .signatureInvalid
  else
    match getClaim t "exp" with
    | some (.num e) =>
        if libraryExpiryRejects e now then .error .tokenExpired
        else
          match getClaim t "nbf" with
          | some (.num b) => if now < b then .error .tokenNotYetValid else .ok t.claims
          | some _ => .error .invalidClaims
          | none => .ok t.claims
    | some _ => .error .invalidClaims
    | none =>
        match getClaim t "nbf" with
        | some (.num b) => if now < b then .error .tokenNotYetValid else .ok t.claims
        | some _ => .error .invalidClaims
        | none => .ok t.claims

/-- The Claims struct of src/token.go (the version carrying a single
`role` claim), with the registered exp/iat timestamps as Unix seconds. -/
structure Claims where
  userId : String
  email : String
  username : String
  isVerified : String
  role : String
  type : String
  realm : String
  expiresAt : Int
  issuedAt : Int
deriving DecidableEq, Repr

/-- Outcome of a call to ValidateToken: a successful claims value, an
error return, or a runtime panic (a failed unchecked Go type assertion). -/
inductive VResult where
  | ok (c : Claims)
  | err (msg : String)
  | panic
deriving DecidableEq, Repr

/-- ValidateToken from src/token.go.  The second component is the ordered
list of `RecordTokenValidation(result, reason)` counter increments the call
performs; the `("attempt", "unknown")` entry at the end of every list is
the deferred call installed at function entry, which runs on every exit
path — including panics — after any increment made on the path itself.
Unchecked type assertions (`claims["k"].(string)`, `.(float64)`) are
modelled as `VResult.panic` when the claim is absent or of another
dynamic type. -/
def ValidateToken (cfg : Config) (now : Int) (t : Token) :
    VResult × List (String × String) :=
  match jwtParse cfg now t with
  | .error .tokenExpired =>
      (.err "token expired", [("failure", "token_expired"), ("attempt", "unknown")])
  | .error _ =>
      (.err "failed to parse token", [("failure", "parse_error"), ("attempt", "unknown")])
  | .ok _ =>
    match getClaim t "is_verified" with
    | none => (.err "invalid token", [("failure", "is_verified_missing"), ("attempt", "unknown")])
    | some (.str sVerified) =>
      if sVerified ≠ "true" then
        (.err "invalid token", [("failure", "is_verified_false"), ("attempt", "unknown")])
      else
        match getClaim t "realm" with
        | none => (.err "invalid token", [("failure", "realm_missing"), ("attempt", "unknown")])
        | some (.str sRealm) =>
          if sRealm ≠ cfg.realm then
            (.err "invalid token", [("failure", "realm_mismatch"), ("attempt", "unknown")])
          else
            match getClaim t "type" with
            | none => (.err "invalid token", [("failure", "type_missing"), ("attempt", "unknown")])
            | some (.str sType) =>
              if sType ≠ "ACCESS_TOKEN" then
                (.err "invalid token", [("failure", "type_not_access"), ("attempt", "unknown")])
              else
                match getClaim t "role" with
                | none =>
                    (.err "invalid token", [("failure", "role_missing"), ("attempt", "unknown")])
                | some _ =>
                  match asString (getClaim t "user_id"), asString (getClaim t "email"),
                      asString (getClaim t "username"), asString (getClaim t "role"),
                      asNum (getClaim t "exp"), asNum (getClaim t "iat") with
                  | some uid, some em, some un, some rl, some e, some ia =>
                    let payload : Claims :=
                      { userId := uid, email := em, username := un,
                        isVerified := sVerified, role := rl, type := sType,
                        realm := sRealm, expiresAt := e, issuedAt := ia }
                    if manualExpiryRecheck payload.expiresAt now then
                      (.err "token expired",
                        [("failure", "token_expired_double_check"), ("attempt", "unknown")])
                    else
                      (.ok payload, [("success", "valid"), ("attempt", "unknown")])
                  | _, _, _, _, _, _ => (.panic, [("attempt", "unknown")])
            | some _ => (.panic, [("attempt", "unknown")])
        | some _ => (.panic, [("attempt", "unknown")])
    | some _ => (.panic, [("attempt", "unknown")])

/-- The traffic counters of the Metrics Registry (src/logger.go): the
per-realm MB counters and packet counters touched by the decorator.
Prometheus float64 counters are modelled as exact rationals. -/
structure Registry where
  ingressTrafficMB : String → ℚ
  egressTrafficMB : String → ℚ
  ingressPackets : String → Nat
  egressPackets : String → Nat

/-- RecordIngressTraffic of src/logger.go: when the global registry is
initialized (`ServerMetrics != nil`), convert bytes to megabytes
(1 MB = 1,048,576 bytes), add them to the realm's ingress-MB counter and
increment the realm's ingress-packet counter; otherwise do nothing. -/
def RecordIngressTraffic (reg : Option Registry) (realm : String) (bytes : Nat) :
    Option Registry :=
  match reg with
  | none => none
  | some m => some
      { m with
        ingressTrafficMB := fun r =>
          if r = realm then m.ingressTrafficMB r + (bytes : ℚ) / 1048576
          else m.ingressTrafficMB r,
        ingressPackets := fun r =>
          if r = realm then m.ingressPackets r + 1 else m.ingressPackets r }

/-- RecordEgressTraffic of src/logger.go, symmetric to ingress. -/
def RecordEgressTraffic (reg : Option Registry) (realm : String) (bytes : Nat) :
    Option Registry :=
  match reg with
  | none => none
  | some m => some
      { m with
        egressTrafficMB := fun r =>
          if r = realm then m.egressTrafficMB r + (bytes : ℚ) / 1048576
          else m.egressTrafficMB r,
        egressPackets := fun r =>
          if r = realm then m.egressPackets r + 1 else m.egressPackets r }

/-- The outcome the underlying socket returns for one ReadFrom/WriteTo
call: the transferred byte count n and whether an error was returned. -/
structure IOOutcome where
  n : Nat
  err : Bool
deriving DecidableEq, Repr

/-- MetricsPacketConn (src/metrics_conn.go): the decorator's per-socket
state is just the partition realm. -/
structure MetricsPacketConn where
  realm : String
deriving DecidableEq, Repr

/-- The metrics effect of MetricsPacketConn.ReadFrom: after the underlying
read returns (n, err), record ingress traffic exactly when err == nil and
n > 0; the I/O result itself is passed through unchanged. -/
def MetricsPacketConn.readFromEffect (m : MetricsPacketConn)
    (reg : Option Registry) (o : IOOutcome) : Option Registry :=
  if !o.err && decide (0 < o.n) then RecordIngressTraffic reg m.realm o.n else reg

/-- The metrics effect of MetricsPacketConn.WriteTo, symmetric to reads. -/
def MetricsPacketConn.writeToEffect (m : MetricsPacketConn)
    (reg : Option Registry) (o : IOOutcome) : Option Registry :=
  if !o.err && decide (0 < o.n) then RecordEgressTraffic reg m.realm o.n else reg

/-- Registry state after a sequence of ReadFrom calls whose underlying
outcomes are `os`. -/
def MetricsPacketConn.readRuns (m : MetricsPacketConn)
    (reg : Option Registry) (os : List IOOutcome) : Option Registry :=
  os.foldl m.readFromEffect reg

/-- Registry state after a sequence of WriteTo calls whose underlying
outcomes are `os`. -/
def MetricsPacketConn.writeRuns (m : MetricsPacketConn)
    (reg : Option Registry) (os : List IOOutcome) : Option Registry :=
  os.foldl m.writeToEffect reg

/-- The outcomes of a run that are recorded: error-free with n > 0. -/
def successfulOutcomes (os : List IOOutcome) : List IOOutcome :=
  os.filter (fun o => !o.err && decide (0 < o.n))

/-- Total bytes across the recorded outcomes of a run. -/
def sumSuccessfulBytes (os : List IOOutcome) : Nat :=
  ((successfulOutcomes os).map (fun o => o.n)).sum

/-- A packet connection value as wired in main.go: either a raw socket
from the listener pool (identified by its loop index) or the
MetricsPacketConn decorator around a connection. -/
inductive PConn where
  | raw (id : Nat)
  | metrics (inner : PConn) (realm : String)
deriving DecidableEq, Repr

/-- NewMetricsPacketConn of src/metrics_conn.go. -/
def NewMetricsPacketConn (conn : PConn) (realm : String) : PConn :=
  .metrics conn realm

/-- Whether a connection is the traffic-accounting decorator. -/
def PConn.isWrapped : PConn → Bool
  | .metrics _ _ => true
  | .raw _ => false

/-- One PacketConnConfig entry registered with the relay engine. -/
structure PacketConnConfig where
  packetConn : PConn
deriving DecidableEq, Repr

/-- The listener-pool construction loop of main.go (lines 74-93):
allocate threadNum sockets; wrap each with NewMetricsPacketConn only when
config.EnableMetrics is true, otherwise register the raw socket. -/
def buildPacketConnConfigs (cfg : Config) : List PacketConnConfig :=
  (List.range cfg.threadNum).map (fun i =>
    let conn := PConn.raw i
    let wrappedConn := if cfg.enableMetrics then NewMetricsPacketConn conn cfg.realm else conn
    { packetConn := wrappedConn })

/-- An HTTP request as seen by the metrics middleware: just the Basic
credentials of its Authorization header, none when absent or malformed
(`r.BasicAuth()` returning ok=false). -/
structure HttpRequest where
  basicCreds : Option (String × String)
deriving DecidableEq, Repr

/-- An HTTP response: status code and whether a WWW-Authenticate
challenge header was set. -/
structure HttpResponse where
  status : Nat
  wwwAuthenticate : Bool
deriving DecidableEq, Repr

/-- basicAuth of src/logger.go: 500 when the configured username or
password is empty; 401 with a WWW-Authenticate challenge when the request
carries no credentials or the constant-time comparison of either field
fails; otherwise the request proceeds. -/
def basicAuth (r : HttpRequest) (expectedUsername expectedPassword : String) :
    Except HttpResponse Unit :=
  if expectedUsername = "" ∨ expectedPassword = "" then
    .error { status := 500, wwwAuthenticate := false }
  else
    match r.basicCreds with
    | none => .error { status := 401, wwwAuthenticate := true }
    | some (username, password) =>
        if username = expectedUsername ∧ password = expectedPassword then .ok ()
        else .error { status := 401, wwwAuthenticate := true }

/-- SecurityMiddleware of src/logger.go: in mode "basic" the request must
pass basicAuth before reaching the protected handler; the "none" case and
the default case of the switch (any other mode string, after a warning
log) both fall through to the handler unchecked. -/
def SecurityMiddleware (cfg : Config) (next : HttpResponse) (r : HttpRequest) :
    HttpResponse :=
  if cfg.metricsAuth = "basic" then
    match basicAuth r cfg.metricsUsername cfg.metricsPassword with
    | .error resp => resp
    | .ok _ => next
  else next

/-- The response of the promhttp metrics handler once reached: a 200 text
exposition with no challenge header. -/
def promHandlerResponse : HttpResponse :=
  { status := 200, wwwAuthenticate := false }

/-- The /metrics route as wired by StartMetricsServer: the prometheus
handler behind the security middleware. -/
def handleMetrics (cfg : Config) (r : HttpRequest) : HttpResponse :=
  SecurityMiddleware cfg promHandlerResponse r

/-- The routes the metrics HTTP server serves once started. -/
structure MetricsServer where
  metricsResp : HttpRequest → HttpResponse
  healthResp : HttpResponse
  infoResp : HttpRequest → HttpResponse

/-- StartMetricsServer of src/logger.go: returns without serving when
metrics are disabled; otherwise starts the HTTP server unconditionally —
no credential precheck happens at startup — with /metrics and /info
behind the security middleware and /health unauthenticated. -/
def StartMetricsServer (cfg : Config) : Option MetricsServer :=
  if cfg.enableMetrics = false then none
  else some
    { metricsResp := fun r => SecurityMiddleware cfg promHandlerResponse r,
      healthResp := { status := 200, wwwAuthenticate := false },
      infoResp := fun r =>
        SecurityMiddleware cfg { status := 200, wwwAuthenticate := false } r }

/-! Concrete configurations and tokens used by witnesses and
counterexamples. -/

/-- A development configuration: HS256 secret "secret", realm
"production", two listener threads, metrics enabled without endpoint
authentication. -/
def cfgDev : Config :=
  { publicIP := "1.2.3.4", accessSecret := "secret", threadNum := 2,
    realm := "production", enableMetrics := true, metricsAuth := "none",
    metricsUsername := "", metricsPassword := "" }

/-- A fully well-formed access token for cfgDev, unexpired at time 1000. -/
def tokGood : Token :=
  { alg := "HS256", signedWith := "secret",
    claims := [("exp", .num 2000), ("iat", .num 500), ("is_verified", .str "true"),
      ("realm", .str "production"), ("type", .str "ACCESS_TOKEN"), ("role", .str "user"),
      ("user_id", .str "u1"), ("email", .str "e@x"), ("username", .str "u")] }

/-- A validly signed, unexpired token whose is_verified claim is the JSON
boolean true rather than the string "true". -/
def tokBoolVerified : Token :=
  { alg := "HS256", signedWith := "secret",
    claims := [("exp", .num 2000), ("is_verified", .bool true)] }

/-- A validly signed, unexpired, verified token whose realm claim is the
string "other" instead of cfgDev's "production". -/
def tokRealmMismatch : Token :=
  { alg := "HS256", signedWith := "secret",
    claims := [("exp", .num 2000), ("is_verified", .str "true"), ("realm", .str "other")] }

/-- A validly signed, unexpired token whose realm claim differs from the
configured realm and whose is_verified claim is a JSON boolean. -/
def tokRealmDiffPanic : Token :=
  { alg := "HS256", signedWith := "secret",
    claims := [("exp", .num 2000), ("is_verified", .bool true), ("realm", .str "other")] }

/-- Like tokGood but with no user_id claim at all. -/
def tokNoUserId : Token :=
  { alg := "HS256", signedWith := "secret",
    claims := [("exp", .num 2000), ("iat", .num 500), ("is_verified", .str "true"),
      ("realm", .str "production"), ("type", .str "ACCESS_TOKEN"), ("role", .str "user"),
      ("email", .str "e@x"), ("username", .str "u")] }

/-- Like tokGood but expiring exactly at validation time 1000. -/
def tokExpBoundary : Token :=
  { alg := "HS256", signedWith := "secret",
    claims := [("exp", .num 1000), ("iat", .num 500), ("is_verified", .str "true"),
      ("realm", .str "production"), ("type", .str "ACCESS_TOKEN"), ("role", .str "user"),
      ("user_id", .str "u1"), ("email", .str "e@x"), ("username", .str "u")] }

/-- An expired token signed with the wrong secret. -/
def tokExpiredBadSig : Token :=
  { alg := "HS256", signedWith := "wrong", claims := [("exp", .num 900)] }

/-- Basic-auth metrics configuration with credentials left empty. -/
def cfgEmptyCreds : Config :=
  { cfgDev with metricsAuth := "basic", metricsUsername := "", metricsPassword := "" }

/-- Basic-auth metrics configuration with credentials admin/pw. -/
def cfgBasicGood : Config :=
  { cfgDev with metricsAuth := "basic", metricsUsername := "admin", metricsPassword := "pw" }

/-- Configuration with metrics disabled and a single listener. -/
def cfgMetricsOff : Config :=
  { cfgDev with enableMetrics := false, threadNum := 1 }

/-- Configuration with a misspelled metrics auth mode. -/
def cfgTypoAuth : Config :=
  { cfgDev with metricsAuth := "basicc" }

/-! Helper lemmas shared by the claim theorems. -/

/-- A successful ValidateToken run forces the token's realm claim to be
exactly the configured realm as a string. -/
theorem validateToken_ok_realm (cfg : Config) (now : Int) (t : Token) (c : Claims)
    (l : List (String × String)) (h : ValidateToken cfg now t = (.ok c, l)) :
    getClaim t "realm" = some (.str cfg.realm) := by
  unfold ValidateToken at h
  repeat any_goals split at h
  all_goals simp_all

/-- After any sequence of ReadFrom calls, the realm's ingress-MB counter
has grown by the successful byte total divided by 1048576 and the
ingress-packet counter by the number of successful nonzero reads. -/
theorem readRuns_spec (m : MetricsPacketConn) (os : List IOOutcome) :
    ∀ m0 : Registry,
    ∃ m1, m.readRuns (some m0) os = some m1 ∧
      m1.ingressTrafficMB m.realm =
        m0.ingressTrafficMB m.realm + (sumSuccessfulBytes os : ℚ) / 1048576 ∧
      m1.ingressPackets m.realm =
        m0.ingressPackets m.realm + (successfulOutcomes os).length := by
  induction os with
  | nil =>
      intro m0
      exact ⟨m0, rfl, by simp [sumSuccessfulBytes, successfulOutcomes],
        by simp [successfulOutcomes]⟩
  | cons o os ih =>
      intro m0
      have hrun : m.readRuns (some m0) (o :: os) =
          m.readRuns (m.readFromEffect (some m0) o) os := rfl
      by_cases hc : (!o.err && decide (0 < o.n)) = true
      · have hstep : m.readFromEffect (some m0) o =
            some { m0 with
                   ingressTrafficMB := fun r =>
                     if r = m.realm then m0.ingressTrafficMB r + (o.n : ℚ) / 1048576
                     else m0.ingressTrafficMB r,
                   ingressPackets := fun r =>
                     if r = m.realm then m0.ingressPackets r + 1
                     else m0.ingressPackets r } := by
          simp [MetricsPacketConn.readFromEffect, hc, RecordIngressTraffic]
        obtain ⟨m1, hrun1, htraf, hpack⟩ := ih _
        refine ⟨m1, by rw [hrun, hstep]; exact hrun1, ?_, ?_⟩
        · rw [htraf]
          have hsum : sumSuccessfulBytes (o :: os) = o.n + sumSuccessfulBytes os := by
            simp [sumSuccessfulBytes, successfulOutcomes, List.filter_cons, hc]
          rw [hsum]
          simp only [if_true]
          push_cast
          ring
        · rw [hpack]
          have hlen : (successfulOutcomes (o :: os)).length =
              (successfulOutcomes os).length + 1 := by
            simp [successfulOutcomes, List.filter_cons, hc]
          rw [hlen]
          simp only [if_true]
          omega
      · have hstep : m.readFromEffect (some m0) o = some m0 := by
          simp [MetricsPacketConn.readFromEffect, hc]
        obtain ⟨m1, hrun1, htraf, hpack⟩ := ih m0
        refine ⟨m1, by rw [hrun, hstep]; exact hrun1, ?_, ?_⟩
        · rw [htraf]
          have hsum : sumSuccessfulBytes (o :: os) = sumSuccessfulBytes os := by
            simp [sumSuccessfulBytes, successfulOutcomes, List.filter_cons, hc]
          rw [hsum]
        · rw [hpack]
          have hlen : (successfulOutcomes (o :: os)).length =
              (successfulOutcomes os).length := by
            simp [successfulOutcomes, List.filter_cons, hc]
          omega

/-- After any sequence of WriteTo calls, the realm's egress-MB counter
has grown by the successful byte total divided by 1048576 and the
egress-packet counter by the number of successful nonzero writes. -/
theorem writeRuns_spec (m : MetricsPacketConn) (os : List IOOutcome) :
    ∀ m0 : Registry,
    ∃ m1, m.writeRuns (some m0) os = some m1 ∧
      m1.egressTrafficMB m.realm =
        m0.egressTrafficMB m.realm + (sumSuccessfulBytes os : ℚ) / 1048576 ∧
      m1.egressPackets m.realm =
        m0.egressPackets m.realm + (successfulOutcomes os).length := by
  induction os with
  | nil =>
      intro m0
      exact ⟨m0, rfl, by simp [sumSuccessfulBytes, successfulOutcomes],
        by simp [successfulOutcomes]⟩
  | cons o os ih =>
      intro m0
      have hrun : m.writeRuns (some m0) (o :: os) =
          m.writeRuns (m.writeToEffect (some m0) o) os := rfl
      by_cases hc : (!o.err && decide (0 < o.n)) = true
      · have hstep : m.writeToEffect (some m0) o =
            some { m0 with
                   egressTrafficMB := fun r =>
                     if r = m.realm then m0.egressTrafficMB r + (o.n : ℚ) / 1048576
                     else m0.egressTrafficMB r,
                   egressPackets := fun r =>
                     if r = m.realm then m0.egressPackets r + 1
                     else m0.egressPackets r } := by
          simp [MetricsPacketConn.writeToEffect, hc, RecordEgressTraffic]
        obtain ⟨m1, hrun1, htraf, hpack⟩ := ih _
        refine ⟨m1, by rw [hrun, hstep]; exact hrun1, ?_, ?_⟩
        · rw [htraf]
          have hsum : sumSuccessfulBytes (o :: os) = o.n + sumSuccessfulBytes os := by
            simp [sumSuccessfulBytes, successfulOutcomes, List.filter_cons, hc]
          rw [hsum]
          simp only [if_true]
          push_cast
          ring
        · rw [hpack]
          have hlen : (successfulOutcomes (o :: os)).length =
              (successfulOutcomes os).length + 1 := by
            simp [successfulOutcomes, List.filter_cons, hc]
          rw [hlen]
          simp only [if_true]
          omega
      · have hstep : m.writeToEffect (some m0) o = some m0 := by
          simp [MetricsPacketConn.writeToEffect, hc]
        obtain ⟨m1, hrun1, htraf, hpack⟩ := ih m0
        refine ⟨m1, by rw [hrun, hstep]; exact hrun1, ?_, ?_⟩
        · rw [htraf]
          have hsum : sumSuccessfulBytes (o :: os) = sumSuccessfulBytes os := by
            simp [sumSuccessfulBytes, successfulOutcomes, List.filter_cons, hc]
          rw [hsum]
        · rw [hpack]
          have hlen : (successfulOutcomes (o :: os)).length =
              (successfulOutcomes os).length := by
            simp [successfulOutcomes, List.filter_cons, hc]
          omega

/-! Claim theorems. -/

/-- Claim C1, counterexample: a token satisfying every condition the claim
lists (validly signed HS256, future expiry, is_verified "true", matching
realm, type ACCESS_TOKEN, role present) but carrying no user_id claim
makes ValidateToken panic on the unchecked `claims["user_id"].(string)`
type assertion instead of returning a nil error and a Claims value. -/
theorem claim1_counterexample :
    ValidateToken cfgDev 1000 tokNoUserId = (.panic, [("attempt", "unknown")]) := by
  decide

/-- Claim C1 (amended): for every token that is validly signed with the
configured secret under HS256, whose exp claim is a numeric timestamp in
the future, which carries no nbf claim, whose is_verified claim is the
string "true", whose realm claim equals the configured realm, whose type
claim is "ACCESS_TOKEN", and whose role, user_id, email and username
claims are strings and iat claim is numeric, ValidateToken succeeds and
returns a Claims value whose fields equal the corresponding input claims. -/
theorem claim1_valid_token_returns_matching_claims (cfg : Config) (now : Int)
    (t : Token) (uid em un rl : String) (e ia : Int)
    (halg : t.alg = "HS256")
    (hsig : t.signedWith = cfg.accessSecret)
    (hexp : getClaim t "exp" = some (.num e))
    (hfut : now < e)
    (hnbf : getClaim t "nbf" = none)
    (hver : getClaim t "is_verified" = some (.str "true"))
    (hrealm : getClaim t "realm" = some (.str cfg.realm))
    (htype : getClaim t "type" = some (.str "ACCESS_TOKEN"))
    (hrole : getClaim t "role" = some (.str rl))
    (huid : getClaim t "user_id" = some (.str uid))
    (hem : getClaim t "email" = some (.str em))
    (hun : getClaim t "username" = some (.str un))
    (hiat : getClaim t "iat" = some (.num ia)) :
    ValidateToken cfg now t =
      (.ok { userId := uid, email := em, username := un, isVerified := "true",
             role := rl, type := "ACCESS_TOKEN", realm := cfg.realm,
             expiresAt := e, issuedAt := ia },
       [("success", "valid"), ("attempt", "unknown")]) := by
  have hnle : ¬ (e ≤ now) := by omega
  have hnlt : ¬ (e < now) := by omega
  simp [ValidateToken, jwtParse, libraryExpiryRejects, manualExpiryRecheck,
    asString, asNum, halg, hsig, hexp, hnbf, hver, hrealm, htype, hrole,
    huid, hem, hun, hiat, hnle, hnlt]

/-- Claim C1, witness: the amended theorem applied to tokGood under cfgDev
at time 1000. -/
theorem claim1_witness :
    tokGood.alg = "HS256" ∧ tokGood.signedWith = cfgDev.accessSecret ∧
    getClaim tokGood "exp" = some (.num 2000) ∧ (1000 : Int) < 2000 ∧
    getClaim tokGood "nbf" = none ∧
    getClaim tokGood "is_verified" = some (.str "true") ∧
    getClaim tokGood "realm" = some (.str cfgDev.realm) ∧
    getClaim tokGood "type" = some (.str "ACCESS_TOKEN") ∧
    getClaim tokGood "role" = some (.str "user") ∧
    getClaim tokGood "user_id" = some (.str "u1") ∧
    getClaim tokGood "email" = some (.str "e@x") ∧
    getClaim tokGood "username" = some (.str "u") ∧
    getClaim tokGood "iat" = some (.num 500) ∧
    ValidateToken cfgDev 1000 tokGood =
      (.ok { userId := "u1", email := "e@x", username := "u", isVerified := "true",
             role := "user", type := "ACCESS_TOKEN", realm := cfgDev.realm,
             expiresAt := 2000, issuedAt := 500 },
       [("success", "valid"), ("attempt", "unknown")]) :=
  ⟨by decide, by decide, by decide, by decide, by decide, by decide, by decide,
   by decide, by decide, by decide, by decide, by decide, by decide,
   claim1_valid_token_returns_matching_claims cfgDev 1000 tokGood "u1" "e@x" "u"
     "user" 2000 500 (by decide) (by decide) (by decide) (by decide) (by decide)
     (by decide) (by decide) (by decide) (by decide) (by decide) (by decide)
     (by decide) (by decide)⟩

/-- Claim C2, counterexample: a validly signed, unexpired token whose
realm claim is "other" (differing from the configured "production") but
whose is_verified claim is a JSON boolean makes ValidateToken panic
rather than return an error. -/
theorem claim2_counterexample :
    ValidateToken cfgDev 1000 tokRealmDiffPanic = (.panic, [("attempt", "unknown")]) := by
  decide

/-- Claim C2 (amended): no token whose realm claim differs from the
configured realm ever validates successfully; whenever the validation
reaches the realm comparison (valid parse, is_verified present as the
string "true") with a string realm claim, ValidateToken returns the
invalid-token error with the realm_mismatch reason (ill-typed claims
can make it panic instead of returning an error, but never succeed). -/
theorem claim2_realm_mismatch_never_succeeds (cfg : Config) (now : Int) (t : Token)
    (v : JVal) (hrealm : getClaim t "realm" = some v) (hne : v ≠ .str cfg.realm) :
    (∀ c, (ValidateToken cfg now t).1 ≠ VResult.ok c) ∧
    (∀ s, v = .str s → jwtParse cfg now t = .ok t.claims →
      getClaim t "is_verified" = some (.str "true") →
      ValidateToken cfg now t =
        (.err "invalid token", [("failure", "realm_mismatch"), ("attempt", "unknown")])) := by
  constructor
  · intro c hok
    rcases hE : ValidateToken cfg now t with ⟨res, lst⟩
    rw [hE] at hok
    simp only at hok
    subst hok
    have hr := validateToken_ok_realm cfg now t c lst hE
    rw [hrealm] at hr
    exact hne (Option.some.inj hr)
  · intro s hv hparse hver
    subst hv
    have hs : s ≠ cfg.realm := by
      intro h
      exact hne (by rw [h])
    simp [ValidateToken, hparse, hver, hrealm, hs]

/-- Claim C2, witness: the amended theorem applied to tokRealmMismatch
(realm claim "other") under cfgDev (realm "production") at time 1000. -/
theorem claim2_witness :
    getClaim tokRealmMismatch "realm" = some (.str "other") ∧
    (JVal.str "other" ≠ JVal.str cfgDev.realm) ∧
    ((∀ c, (ValidateToken cfgDev 1000 tokRealmMismatch).1 ≠ VResult.ok c) ∧
     (∀ s, JVal.str "other" = .str s →
       jwtParse cfgDev 1000 tokRealmMismatch = .ok tokRealmMismatch.claims →
       getClaim tokRealmMismatch "is_verified" = some (.str "true") →
       ValidateToken cfgDev 1000 tokRealmMismatch =
         (.err "invalid token",
          [("failure", "realm_mismatch"), ("attempt", "unknown")]))) :=
  ⟨by decide, by decide,
   claim2_realm_mismatch_never_succeeds cfgDev 1000 tokRealmMismatch
     (.str "other") (by decide) (by decide)⟩

/-- Claim C3 (code bug): a validly signed, unexpired token whose
is_verified claim is the JSON boolean true — an expected rejection case
per the claim — makes ValidateToken panic on the unchecked
`claims["is_verified"].(string)` type assertion instead of returning a
(claims, error) pair, contradicting the function's own documentation
that it returns an error when validation fails. -/
theorem claim3_panic_on_bool_is_verified :
    ValidateToken cfgDev 1000 tokBoolVerified = (.panic, [("attempt", "unknown")]) := by
  decide

/-- Claim C4, counterexample: at the exact boundary exp = now = 1000 the
manual re-check `payload.ExpiresAt.Before(time.Now())` does NOT reject
(Before is strict), so the rejection of an exactly-now-expiring token is
enforced only by the library verification step, not by both checks; and
an expired token signed with the wrong secret is rejected with a parse
error, not an expiry error. -/
theorem claim4_counterexample :
    manualExpiryRecheck 1000 1000 = false ∧
    ValidateToken cfgDev 1000 tokExpBoundary =
      (.err "token expired", [("failure", "token_expired"), ("attempt", "unknown")]) ∧
    (ValidateToken cfgDev 1000 tokExpiredBadSig).1 = .err "failed to parse token" := by
  refine ⟨by decide, by decide, by decide⟩

/-- Claim C4 (amended): every token that passes the algorithm and
signature checks and whose numeric exp claim is at or before validation
time is rejected with the expiry error (through the library verification
step, which fires on the whole range exp ≤ now); the redundant manual
re-check independently fires only for strictly past expiries exp < now,
so at the exact boundary the rejection rests on the library check alone. -/
theorem claim4_expiry_rejection (cfg : Config) (now e : Int) (t : Token)
    (halg : t.alg = "HS256") (hsig : t.signedWith = cfg.accessSecret)
    (hexp : getClaim t "exp" = some (.num e)) (hpast : e ≤ now) :
    ValidateToken cfg now t =
      (.err "token expired", [("failure", "token_expired"), ("attempt", "unknown")]) ∧
    libraryExpiryRejects e now = true ∧
    (e < now → manualExpiryRecheck e now = true) := by
  have hlib : libraryExpiryRejects e now = true := by
    simp [libraryExpiryRejects, hpast]
  refine ⟨?_, hlib, ?_⟩
  · simp [ValidateToken, jwtParse, halg, hsig, hexp, hlib]
  · intro h
    simp [manualExpiryRecheck, h]

/-- Claim C4, witness: the amended theorem applied to tokExpBoundary
(exp = 1000) at validation time 1000 under cfgDev. -/
theorem claim4_witness :
    tokExpBoundary.alg = "HS256" ∧
    tokExpBoundary.signedWith = cfgDev.accessSecret ∧
    getClaim tokExpBoundary "exp" = some (.num 1000) ∧ (1000 : Int) ≤ 1000 ∧
    (ValidateToken cfgDev 1000 tokExpBoundary =
      (.err "token expired", [("failure", "token_expired"), ("attempt", "unknown")]) ∧
     libraryExpiryRejects 1000 1000 = true ∧
     ((1000 : Int) < 1000 → manualExpiryRecheck 1000 1000 = true)) :=
  ⟨by decide, by decide, by decide, by decide,
   claim4_expiry_rejection cfgDev 1000 1000 tokExpBoundary (by decide) (by decide)
     (by decide) (by decide)⟩

/-- Claim C5, counterexample: with metrics disabled the listener pool
registers the raw, unwrapped socket with the relay engine, so the claim
that under every configuration the registered PacketConn is the
MetricsPacketConn wrapper is false. -/
theorem claim5_counterexample :
    buildPacketConnConfigs cfgMetricsOff = [{ packetConn := PConn.raw 0 }] ∧
    (buildPacketConnConfigs cfgMetricsOff).all
      (fun c => c.packetConn.isWrapped) = false := by
  refine ⟨by decide, by decide⟩

/-- Claim C5 (amended): whenever metrics are enabled, every one of the
threadNum PacketConnConfig entries handed to the relay engine carries the
socket wrapped by NewMetricsPacketConn with the configured realm, never
the raw socket. -/
theorem claim5_wrapped_when_metrics_enabled (cfg : Config)
    (h : cfg.enableMetrics = true) :
    buildPacketConnConfigs cfg =
      (List.range cfg.threadNum).map
        (fun i => { packetConn := PConn.metrics (.raw i) cfg.realm }) ∧
    ∀ c ∈ buildPacketConnConfigs cfg, c.packetConn.isWrapped = true := by
  have hb : buildPacketConnConfigs cfg =
      (List.range cfg.threadNum).map
        (fun i => { packetConn := PConn.metrics (.raw i) cfg.realm }) := by
    simp [buildPacketConnConfigs, h, NewMetricsPacketConn]
  refine ⟨hb, ?_⟩
  intro c hc
  rw [hb] at hc
  simp only [List.mem_map] at hc
  obtain ⟨i, hi, rfl⟩ := hc
  rfl

/-- Claim C5, witness: the amended theorem applied to cfgDev (metrics
enabled, two listeners). -/
theorem claim5_witness :
    cfgDev.enableMetrics = true ∧
    (buildPacketConnConfigs cfgDev =
      (List.range cfgDev.threadNum).map
        (fun i => { packetConn := PConn.metrics (.raw i) cfgDev.realm }) ∧
     ∀ c ∈ buildPacketConnConfigs cfgDev, c.packetConn.isWrapped = true) :=
  ⟨by decide, claim5_wrapped_when_metrics_enabled cfgDev (by decide)⟩

/-- Claim C6 (confirmed): over any sequence of ReadFrom calls the realm's
recorded ingress byte total (the MB counter scaled back to bytes) grows by
exactly the sum of the sizes of the calls that transferred n > 0 bytes
without error, and the ingress packet counter by exactly their number;
symmetrically for WriteTo and egress; erroring or zero-byte operations
contribute nothing. -/
theorem claim6_decorator_traffic_accounting (m : MetricsPacketConn) (m0 : Registry)
    (osR osW : List IOOutcome) :
    (∃ m1, m.readRuns (some m0) osR = some m1 ∧
      1048576 * (m1.ingressTrafficMB m.realm - m0.ingressTrafficMB m.realm) =
        (sumSuccessfulBytes osR : ℚ) ∧
      m1.ingressPackets m.realm =
        m0.ingressPackets m.realm + (successfulOutcomes osR).length) ∧
    (∃ m2, m.writeRuns (some m0) osW = some m2 ∧
      1048576 * (m2.egressTrafficMB m.realm - m0.egressTrafficMB m.realm) =
        (sumSuccessfulBytes osW : ℚ) ∧
      m2.egressPackets m.realm =
        m0.egressPackets m.realm + (successfulOutcomes osW).length) := by
  constructor
  · obtain ⟨m1, hrun, htraf, hpack⟩ := readRuns_spec m osR m0
    refine ⟨m1, hrun, ?_, hpack⟩
    rw [htraf]
    ring
  · obtain ⟨m2, hrun, htraf, hpack⟩ := writeRuns_spec m osW m0
    refine ⟨m2, hrun, ?_, hpack⟩
    rw [htraf]
    ring

/-- Claim C7, counterexample: with auth mode "basic" but empty configured
credentials, a request carrying exactly the configured (empty) username
and password receives a 500, not the 200 the claim asserts. -/
theorem claim7_counterexample :
    handleMetrics cfgEmptyCreds { basicCreds := some ("", "") } =
      { status := 500, wwwAuthenticate := false } := by
  decide

/-- Claim C7 (amended): with Basic auth enabled and nonempty configured
credentials, a request carrying them gets 200; a request with missing or
wrong credentials gets 401 with a WWW-Authenticate challenge; with auth
mode "none" every request gets 200 with no credential check. (With empty
configured credentials under "basic" every request gets 500.) -/
theorem claim7_basic_auth_matrix (cfg : Config) (hb : cfg.metricsAuth = "basic")
    (hu : cfg.metricsUsername ≠ "") (hp : cfg.metricsPassword ≠ "") :
    handleMetrics cfg { basicCreds := some (cfg.metricsUsername, cfg.metricsPassword) } =
      { status := 200, wwwAuthenticate := false } ∧
    handleMetrics cfg { basicCreds := none } = { status := 401, wwwAuthenticate := true } ∧
    (∀ u p, ¬(u = cfg.metricsUsername ∧ p = cfg.metricsPassword) →
      handleMetrics cfg { basicCreds := some (u, p) } =
        { status := 401, wwwAuthenticate := true }) ∧
    (∀ (cfg2 : Config) (r : HttpRequest), cfg2.metricsAuth = "none" →
      handleMetrics cfg2 r = { status := 200, wwwAuthenticate := false }) := by
  refine ⟨?_, ?_, ?_, ?_⟩
  · simp [handleMetrics, SecurityMiddleware, basicAuth, hb, hu, hp, promHandlerResponse]
  · simp [handleMetrics, SecurityMiddleware, basicAuth, hb, hu, hp]
  · intro u p hup
    simp [handleMetrics, SecurityMiddleware, basicAuth, hb, hu, hp, hup]
  · intro cfg2 r h2
    simp [handleMetrics, SecurityMiddleware, h2, promHandlerResponse]

/-- Claim C7, witness: the amended theorem applied to cfgBasicGood
(credentials admin/pw). -/
theorem claim7_witness :
    cfgBasicGood.metricsAuth = "basic" ∧
    cfgBasicGood.metricsUsername ≠ "" ∧ cfgBasicGood.metricsPassword ≠ "" ∧
    (handleMetrics cfgBasicGood
        { basicCreds := some (cfgBasicGood.metricsUsername, cfgBasicGood.metricsPassword) } =
      { status := 200, wwwAuthenticate := false } ∧
     handleMetrics cfgBasicGood { basicCreds := none } =
      { status := 401, wwwAuthenticate := true } ∧
     (∀ u p, ¬(u = cfgBasicGood.metricsUsername ∧ p = cfgBasicGood.metricsPassword) →
       handleMetrics cfgBasicGood { basicCreds := some (u, p) } =
         { status := 401, wwwAuthenticate := true }) ∧
     (∀ (cfg2 : Config) (r : HttpRequest), cfg2.metricsAuth = "none" →
       handleMetrics cfg2 r = { status := 200, wwwAuthenticate := false })) :=
  ⟨by decide, by decide, by decide,
   claim7_basic_auth_matrix cfgBasicGood (by decide) (by decide) (by decide)⟩

/-- Claim C8, counterexample: with metrics enabled, auth mode "basic" and
empty configured credentials the metrics server does start and does
answer requests (with a 500), so the claim that the process must not
start serving in this state is false. -/
theorem claim8_counterexample :
    (StartMetricsServer cfgEmptyCreds).isSome = true ∧
    (StartMetricsServer cfgEmptyCreds).map
      (fun s => s.metricsResp { basicCreds := some ("admin", "pw") }) =
      some { status := 500, wwwAuthenticate := false } := by
  constructor
  · rfl
  · rfl

/-- Claim C8 (amended): "basic" auth with an empty configured username or
password is not a startup failure: the metrics server starts anyway, and
the misconfiguration surfaces as a 500 on every request to the protected
/metrics and /info endpoints (no silent bypass, never a 200). -/
theorem claim8_misconfigured_basic_serves_500 (cfg : Config)
    (hm : cfg.enableMetrics = true) (hb : cfg.metricsAuth = "basic")
    (he : cfg.metricsUsername = "" ∨ cfg.metricsPassword = "") :
    ∃ s, StartMetricsServer cfg = some s ∧
      (∀ r, s.metricsResp r = { status := 500, wwwAuthenticate := false }) ∧
      (∀ r, s.infoResp r = { status := 500, wwwAuthenticate := false }) := by
  refine ⟨{ metricsResp := fun r => SecurityMiddleware cfg promHandlerResponse r,
            healthResp := { status := 200, wwwAuthenticate := false },
            infoResp := fun r =>
              SecurityMiddleware cfg { status := 200, wwwAuthenticate := false } r },
    ?_, ?_, ?_⟩
  · simp [StartMetricsServer, hm]
  · intro r
    rcases he with he | he <;> simp [SecurityMiddleware, basicAuth, hb, he]
  · intro r
    rcases he with he | he <;> simp [SecurityMiddleware, basicAuth, hb, he]

/-- Claim C8, witness: the amended theorem applied to cfgEmptyCreds. -/
theorem claim8_witness :
    cfgEmptyCreds.enableMetrics = true ∧
    cfgEmptyCreds.metricsAuth = "basic" ∧
    (cfgEmptyCreds.metricsUsername = "" ∨ cfgEmptyCreds.metricsPassword = "") ∧
    (∃ s, StartMetricsServer cfgEmptyCreds = some s ∧
      (∀ r, s.metricsResp r = { status := 500, wwwAuthenticate := false }) ∧
      (∀ r, s.infoResp r = { status := 500, wwwAuthenticate := false })) :=
  ⟨by decide, by decide, by decide,
   claim8_misconfigured_basic_serves_500 cfgEmptyCreds (by decide) (by decide)
     (Or.inl (by decide))⟩

/-- Claim C9 (code bug): a single ValidateToken call — here a realm
mismatch — performs two token-validation counter increments, the
outcome-specific ("failure", "realm_mismatch") one and the deferred
("attempt", "unknown") one that fires on every exit path; the code's
comment claims the deferred record "will be overridden", but counter
increments cannot be overridden, so the claim that exactly one labeled
counter is incremented per call is violated by the code. -/
theorem claim9_double_increment :
    (ValidateToken cfgDev 1000 tokRealmMismatch).2 =
      [("failure", "realm_mismatch"), ("attempt", "unknown")] ∧
    (ValidateToken cfgDev 1000 tokRealmMismatch).2.length = 2 := by
  refine ⟨by decide, by decide⟩

/-- Claim C10 (confirmed): for every configured metrics auth mode other
than "basic" — including misspellings — the security middleware performs
no credential check and forwards every request to the protected handler,
so /metrics (and any endpoint behind the middleware) is served exactly as
in mode "none". -/
theorem claim10_unknown_mode_forwards (cfg : Config) (next : HttpResponse)
    (r : HttpRequest) (h : cfg.metricsAuth ≠ "basic") :
    SecurityMiddleware cfg next r = next ∧
    handleMetrics cfg r = promHandlerResponse ∧
    handleMetrics cfg r = handleMetrics { cfg with metricsAuth := "none" } r := by
  refine ⟨?_, ?_, ?_⟩ <;> simp [SecurityMiddleware, handleMetrics, h]

/-- Claim C10, witness: the theorem applied to the misspelled mode
"basicc" of cfgTypoAuth. -/
theorem claim10_witness :
    cfgTypoAuth.metricsAuth ≠ "basic" ∧
    (SecurityMiddleware cfgTypoAuth { status := 200, wwwAuthenticate := false }
        { basicCreds := none } = { status := 200, wwwAuthenticate := false } ∧
     handleMetrics cfgTypoAuth { basicCreds := none } = promHandlerResponse ∧
     handleMetrics cfgTypoAuth { basicCreds := none } =
       handleMetrics { cfgTypoAuth with metricsAuth := "none" } { basicCreds := none }) :=
  ⟨by decide,
   claim10_unknown_mode_forwards cfgTypoAuth { status := 200, wwwAuthenticate := false }
     { basicCreds := none } (by decide)⟩

end Saturn
